import Mathlib

/- Verification development for the offer eligibility, discount and scoring
   engine of the hotel-royal-orchid-management repository.  The definitions
   below are a shallow embedding of `src/models/offer.py` (class `Offer`) and
   `src/utils/offer_engine.py` (class `SmartOfferEngine`).

   Modelling conventions:
   * Python floats are modelled as rationals (ℚ); `round(x, 2)` is modelled by
     `round2`, using round-half-to-even on the rational, as Python's `round`.
   * Instants (`datetime`) and calendar dates (`date`) are integers: an instant
     is an abstract tick, a date is a day count since 1970-01-01.  The current
     instant (`datetime.utcnow()`) and the current day (`date.today()`) are
     threaded as explicit parameters `now` and `today`.
   * Fallible code returns `Except PyErr`; a Python exception escaping a
     function is `.error e`.  The methods `is_valid_season` and `is_valid_day`
     invoked by `Offer.is_valid_for_booking` are not defined anywhere in the
     repository, so reaching those calls raises `AttributeError`; the embedding
     models those call sites as `.error .attributeError`.
   * The stored `target_rooms` column is a text field holding JSON; its parse
     outcome is modelled by `TargetData`: `.malformed` for text `json.loads`
     cannot turn into the expected `{room_types, room_ids}` shape, and
     `.wellFormed` for a successful parse.  `none` models an absent/empty
     (falsy) column value.
   * Python truthiness on optional numeric columns (`usage_limit`,
     `max_stay_nights`, `max_advance_booking_days`, `max_discount`,
     `min_stay_nights`, `min_amount`) is modelled explicitly: `None` and `0`
     are falsy.
   * The SQL query `order_by(priority.desc())` is determinized as a stable
     descending sort of the stored table order (`sortD`); SQL leaves the order
     of equal-priority rows unspecified, and no secondary key is requested by
     the code. -/

inductive PyErr where
  | attributeError
  | zeroDivisionError
  deriving DecidableEq

inductive TargetData where
  | malformed
  | wellFormed (room_types : List String) (room_ids : List Int)
  deriving DecidableEq

/-- Offer record, the columns of `models/offer.py` that the engine reads. -/
structure Offer where
  code : String := ""
  discount_type : String
  discount_value : ℚ
  min_amount : ℚ := 0
  max_discount : Option ℚ := none
  valid_from : ℤ := 0
  valid_until : ℤ
  usage_limit : Option ℤ := none
  used_count : ℤ := 0
  is_active : Bool := true
  is_public : Bool := true
  target_rooms : Option TargetData := none
  target_user_type : String := "all"
  min_stay_nights : ℤ := 1
  max_stay_nights : Option ℤ := none
  advance_booking_days : ℤ := 0
  max_advance_booking_days : Option ℤ := none
  season_type : String := "all"
  day_of_week : String := "all"
  priority : ℤ := 1
  auto_apply : Bool := false
  created_at : ℤ := 0
  deriving DecidableEq

/-- User handle; the engine only ever reads the count of the user's bookings
    with status completed (the `Booking.query.filter_by(...).count()` calls). -/
structure User where
  completed_bookings : ℕ
  deriving DecidableEq

structure Room where
  id : ℤ
  room_type : String
  deriving DecidableEq

/-- The `booking_data` dict: `check_in` / `check_out` are dates (epoch day
    numbers), `total_amount` is read with `.get('total_amount', 0)`. -/
structure BookingData where
  check_in : Option ℤ := none
  check_out : Option ℤ := none
  total_amount : Option ℚ := none
  deriving DecidableEq

/-- Round-half-to-even to an integer, the tie rule of Python's `round`. -/
def bankersRound (q : ℚ) : ℤ :=
  if q - ⌊q⌋ < 1/2 then ⌊q⌋
  else if 1/2 < q - ⌊q⌋ then ⌊q⌋ + 1
  else if ⌊q⌋ % 2 = 0 then ⌊q⌋ else ⌊q⌋ + 1

/-- Python `round(x, 2)`. -/
def round2 (q : ℚ) : ℚ := (bankersRound (q * 100) : ℚ) / 100

/-- Python `int(x)` on a rational: truncation toward zero. -/
def pytrunc (q : ℚ) : ℤ := Int.tdiv q.num (q.den : ℤ)

/-- Offer.is_valid_for_user (offer.py lines 73-98). -/
def Offer.is_valid_for_user (o : Offer) (u : User) : Bool :=
  if o.target_user_type == "all" then true
  else if o.target_user_type == "new_user" then decide (u.completed_bookings = 0)
  else if o.target_user_type == "returning_user" then decide (1 ≤ u.completed_bookings)
  else if o.target_user_type == "vip" then decide (3 ≤ u.completed_bookings)
  else false

/-- Offer.is_valid_for_booking (offer.py lines 100-139).  The season and
    day-of-week branches call `self.is_valid_season` / `self.is_valid_day`,
    attributes that no code in the repository defines, so reaching them raises
    `AttributeError`. -/
def Offer.is_valid_for_booking (o : Offer) (b : BookingData) (today : ℤ) : Except PyErr Bool :=
  let total := b.total_amount.getD 0
  if total < o.min_amount then .ok false
  else if (match b.check_in, b.check_out with
    | some ci, some co =>
        let nights := co - ci
        decide (nights < o.min_stay_nights) ||
          (match o.max_stay_nights with
           | some m => decide (m ≠ 0) && decide (m < nights)
           | none => false)
    | _, _ => false) then .ok false
  else if (match b.check_in with
    | some ci =>
        decide (0 < o.advance_booking_days) &&
          (decide (ci - today < o.advance_booking_days) ||
           (match o.max_advance_booking_days with
            | some m => decide (m ≠ 0) && decide (m < ci - today)
            | none => false))
    | none => false) then .ok false
  else if o.season_type != "all" && b.check_in.isSome then .error .attributeError
  else if o.day_of_week != "all" && b.check_in.isSome then .error .attributeError
  else .ok true

/-- Offer.is_valid_for_room (offer.py lines 141-161); the bare `except` around
    the JSON access returns True on malformed targeting data. -/
def Offer.is_valid_for_room (o : Offer) (r : Room) : Bool :=
  match o.target_rooms with
  | none => true
  | some .malformed => true
  | some (.wellFormed room_types room_ids) =>
      (!room_types.isEmpty && room_types.contains r.room_type) ||
      (!room_ids.isEmpty && room_ids.contains r.id)

/-- Tail of Offer.is_valid (offer.py lines 66-71): the room-targeting gate and
    the final `(True, "Valid")`. -/
def Offer.roomGate (o : Offer) (room : Option Room) : Except PyErr (Bool × String) :=
  if (match room, o.target_rooms with
      | some r, some _ => !(o.is_valid_for_room r)
      | _, _ => false) then .ok (false, "Offer not applicable for this room")
  else .ok (true, "Valid")

/-- Offer.is_valid (offer.py lines 44-71). -/
def Offer.is_valid (o : Offer) (user : Option User) (booking_data : Option BookingData)
    (room : Option Room) (now today : ℤ) : Except PyErr (Bool × String) :=
  if !o.is_active then .ok (false, "Offer is not active")
  else if !(decide (o.valid_from ≤ now) && decide (now ≤ o.valid_until)) then
    .ok (false, "Offer has expired")
  else if (match o.usage_limit with
           | some l => decide (l ≠ 0) && decide (l ≤ o.used_count)
           | none => false) then .ok (false, "Offer usage limit reached")
  else if (match user with
           | some u => (o.target_user_type != "all") && !(o.is_valid_for_user u)
           | none => false) then .ok (false, "Offer not applicable for your account type")
  else
    match booking_data with
    | some b =>
        match o.is_valid_for_booking b today with
        | .error e => .error e
        | .ok false => .ok (false, "Offer not applicable for this booking")
        | .ok true => o.roomGate room
    | none => o.roomGate room

/-- Offer.calculate_stay_x_pay_y_discount (offer.py lines 180-191). -/
def Offer.calculate_stay_x_pay_y_discount (o : Offer) (amount : ℚ) (nights : ℤ) :
    Except PyErr ℚ :=
  if (nights : ℚ) ≤ o.discount_value then .ok 0
  else if nights = 0 then .error .zeroDivisionError
  else
    let nightly_rate := amount / (nights : ℚ)
    if 4 ≤ nights then .ok nightly_rate else .ok 0

/-- Offer.calculate_free_night_discount (offer.py lines 193-203).  The nightly
    rate `amount / nights` is computed before the `nights >= min_nights` test,
    and `int(nights / min_nights)` divides by `min_stay_nights`; either
    division raises `ZeroDivisionError` on a zero divisor. -/
def Offer.calculate_free_night_discount (o : Offer) (amount : ℚ) (nights : ℤ) :
    Except PyErr ℚ :=
  if nights = 0 then .error .zeroDivisionError
  else
    let nightly_rate := amount / (nights : ℚ)
    if o.min_stay_nights ≤ nights then
      if o.min_stay_nights = 0 then .error .zeroDivisionError
      else .ok ((pytrunc ((nights : ℚ) / (o.min_stay_nights : ℚ)) : ℚ) * nightly_rate)
    else .ok 0

/-- Offer.calculate_discount (offer.py lines 163-178). -/
def Offer.calculate_discount (o : Offer) (amount : ℚ) (nights : ℤ) : Except PyErr ℚ :=
  if o.discount_type == "percentage" then
    let d := amount * (o.discount_value / 100)
    let d : ℚ := match o.max_discount with
      | some m => if m = 0 then d else min d m
      | none => d
    .ok (round2 d)
  else if o.discount_type == "fixed" then .ok (round2 (min o.discount_value amount))
  else if o.discount_type == "stay_x_pay_y" then
    (o.calculate_stay_x_pay_y_discount amount nights).map round2
  else if o.discount_type == "free_night" then
    (o.calculate_free_night_discount amount nights).map round2
  else .ok (round2 0)

/-- Civil-calendar month (1..12) of an epoch day number (days since
    1970-01-01), the value of Python's `check_in.month`. -/
def monthOfEpochDay (z : ℤ) : ℤ :=
  let z' := z + 719468
  let era := Int.fdiv z' 146097
  let doe := z' - era * 146097
  let yoe := (doe - doe / 1461 + doe / 36524 - doe / 146096) / 365
  let doy := doe - (365 * yoe + yoe / 4 - yoe / 100)
  let mp := (5 * doy + 2) / 153
  if mp < 10 then mp + 3 else mp - 9

/-- Python `date.weekday()`: Monday = 0 .. Sunday = 6; 1970-01-01 was a
    Thursday. -/
def weekdayOfEpochDay (z : ℤ) : ℤ := (z + 3).emod 7

/-- Stable insertion into a list sorted descending by the key `k`: the new
    element goes in front of the first element whose key is not larger. -/
def insertD {α : Type} (k : α → ℤ) (x : α) : List α → List α
  | [] => [x]
  | y :: ys => if k x < k y then y :: insertD k x ys else x :: y :: ys

/-- Stable descending sort by an integer key, the behavior of Python's
    `list.sort(key=..., reverse=True)` and the determinization of the SQL
    `order_by(...desc())` over the stored row order. -/
def sortD {α : Type} (k : α → ℤ) (l : List α) : List α := l.foldr (insertD k) []

/-- The for-loop of Offer.get_available_offers (offer.py lines 260-267):
    collect the offers whose is_valid is true, propagating any exception. -/
def collectValid (user : Option User) (bd : Option BookingData) (room : Option Room)
    (now today : ℤ) : List Offer → Except PyErr (List Offer)
  | [] => .ok []
  | o :: rest =>
      match o.is_valid user bd room now today with
      | .error e => .error e
      | .ok (b, _) =>
          match collectValid user bd room now today rest with
          | .error e => .error e
          | .ok l => .ok (if b then o :: l else l)

/-- Offer.get_available_offers (offer.py lines 256-267): active and public
    offers in priority-descending order, filtered by is_valid.  `db` is the
    offers table in stored row order. -/
def Offer.get_available_offers (db : List Offer) (user : Option User)
    (bd : Option BookingData) (room : Option Room) (now today : ℤ) :
    Except PyErr (List Offer) :=
  collectValid user bd room now today
    (sortD (fun o => o.priority) (db.filter (fun o => o.is_active && o.is_public)))

/-- SmartOfferEngine._calculate_user_match_score (offer_engine.py lines 57-77). -/
def SmartOfferEngine.calculate_user_match_score (o : Offer) (u : User) : ℤ :=
  if o.target_user_type == "all" then 10
  else if o.target_user_type == "new_user" && decide (u.completed_bookings = 0) then 25
  else if o.target_user_type == "returning_user" && decide (1 ≤ u.completed_bookings) then 20
  else if o.target_user_type == "vip" && decide (3 ≤ u.completed_bookings) then 30
  else -20

/-- SmartOfferEngine._calculate_booking_match_score (offer_engine.py lines
    79-107); `if offer.min_stay_nights and ...` style guards make a zero
    column value skip both the bonus and the penalty. -/
def SmartOfferEngine.calculate_booking_match_score (o : Offer) (b : BookingData) : ℤ :=
  let stayScore : ℤ :=
    match b.check_in, b.check_out with
    | some ci, some co =>
        let nights := co - ci
        (if o.min_stay_nights ≠ 0 ∧ o.min_stay_nights ≤ nights then 15
         else if o.min_stay_nights ≠ 0 ∧ nights < o.min_stay_nights then -10 else 0)
        + (match o.max_stay_nights with
           | some m =>
               if m ≠ 0 ∧ nights ≤ m then 10
               else if m ≠ 0 ∧ m < nights then -10 else 0
           | none => 0)
    | _, _ => 0
  let total := b.total_amount.getD 0
  stayScore +
    (if o.min_amount ≠ 0 ∧ o.min_amount ≤ total then 12
     else if o.min_amount ≠ 0 ∧ total < o.min_amount then -8 else 0)

/-- SmartOfferEngine._calculate_room_match_score (offer_engine.py lines
    109-132); a JSON parse failure is swallowed and scores 0. -/
def SmartOfferEngine.calculate_room_match_score (o : Offer) (r : Room) : ℤ :=
  match o.target_rooms with
  | some (.wellFormed room_types room_ids) =>
      if !room_ids.isEmpty && room_ids.contains r.id then 30
      else if !room_types.isEmpty && room_types.contains r.room_type then 25
      else if !room_types.isEmpty || !room_ids.isEmpty then -15
      else 0
  | some .malformed => 0
  | none => 0

/-- SmartOfferEngine._check_season_match (offer_engine.py lines 176-192):
    False whenever the booking context or its check-in date is missing. -/
def SmartOfferEngine.check_season_match (season_type : String) (bd : Option BookingData) : Bool :=
  match bd with
  | none => false
  | some b =>
      match b.check_in with
      | none => false
      | some ci =>
          let month := monthOfEpochDay ci
          if season_type == "peak" then
            month == 12 || month == 1 || month == 6 || month == 7
          else if season_type == "off_peak" then
            month == 2 || month == 3 || month == 9 || month == 10
          else if season_type == "festival" then
            month == 10 || month == 11 || month == 12
          else true

/-- SmartOfferEngine._check_day_match (offer_engine.py lines 194-204). -/
def SmartOfferEngine.check_day_match (day_type : String) (check_in : ℤ) : Bool :=
  let weekday := weekdayOfEpochDay check_in
  if day_type == "weekend" then decide (5 ≤ weekday)
  else if day_type == "weekday" then decide (weekday < 5)
  else true

/-- SmartOfferEngine._calculate_timing_match_score (offer_engine.py lines
    134-174).  The season term is evaluated even without a booking context;
    the day-of-week, advance-booking and last-minute terms need a check-in. -/
def SmartOfferEngine.calculate_timing_match_score (o : Offer) (bd : Option BookingData)
    (today : ℤ) : ℤ :=
  let seasonScore : ℤ :=
    if o.season_type ≠ "all" then
      if SmartOfferEngine.check_season_match o.season_type bd then 15 else -10
    else 0
  let dayScore : ℤ :=
    match bd with
    | some b =>
        match b.check_in with
        | some ci =>
            if o.day_of_week ≠ "all" then
              if SmartOfferEngine.check_day_match o.day_of_week ci then 12 else -8
            else 0
        | none => 0
    | none => 0
  let advScore : ℤ :=
    match bd with
    | some b =>
        match b.check_in with
        | some ci =>
            let days_in_advance := ci - today
            (if 0 < o.advance_booking_days then
               if o.advance_booking_days ≤ days_in_advance then 10 else -8
             else 0)
            + (match o.max_advance_booking_days with
               | some m =>
                   if m ≠ 0 then (if days_in_advance ≤ m then 8 else -6) else 0
               | none => 0)
        | none => 0
    | none => 0
  let lastMinuteScore : ℤ :=
    match bd with
    | some b =>
        match b.check_in with
        | some ci => if ci - today ≤ 3 ∧ o.advance_booking_days ≤ 3 then 20 else 0
        | none => 0
    | none => 0
  seasonScore + dayScore + advScore + lastMinuteScore

/-- SmartOfferEngine._calculate_offer_score (offer_engine.py lines 27-55). -/
def SmartOfferEngine.calculate_offer_score (o : Offer) (user : Option User)
    (bd : Option BookingData) (room : Option Room) (today : ℤ) : ℤ :=
  let base := o.priority * 10
  let userScore : ℤ :=
    match user with
    | some u =>
        if o.target_user_type ≠ "all" then SmartOfferEngine.calculate_user_match_score o u
        else 0
    | none => 0
  let bookingScore : ℤ :=
    match bd with
    | some b => SmartOfferEngine.calculate_booking_match_score o b
    | none => 0
  let roomScore : ℤ :=
    match room, o.target_rooms with
    | some r, some _ => SmartOfferEngine.calculate_room_match_score o r
    | _, _ => 0
  max (base + userScore + bookingScore + roomScore
       + SmartOfferEngine.calculate_timing_match_score o bd today
       + (if o.auto_apply then 15 else 0)) 0

/-- SmartOfferEngine.generate_personalized_offers (offer_engine.py lines
    11-25): score the available offers, stable-sort descending by score, keep
    the first 8. -/
def SmartOfferEngine.generate_personalized_offers (db : List Offer) (user : Option User)
    (bd : Option BookingData) (room : Option Room) (now today : ℤ) :
    Except PyErr (List Offer) :=
  match Offer.get_available_offers db user bd room now today with
  | .error e => .error e
  | .ok all_offers =>
      .ok ((sortD (fun o => SmartOfferEngine.calculate_offer_score o user bd room today)
              all_offers).take 8)

theorem bankersRound_nonneg {q : ℚ} (h : 0 ≤ q) : 0 ≤ bankersRound q := by
  unfold bankersRound
  have h0 : (0 : ℤ) ≤ ⌊q⌋ := Int.floor_nonneg.mpr h
  split_ifs <;> omega

theorem bankersRound_le_int {q : ℚ} {n : ℤ} (h : q ≤ (n : ℚ)) : bankersRound q ≤ n := by
  have hfl : ⌊q⌋ ≤ n := by
    have h2 := Int.floor_mono h
    simpa using h2
  have key : (1 : ℚ)/2 ≤ q - (⌊q⌋ : ℚ) → ⌊q⌋ + 1 ≤ n := by
    intro hh
    rcases lt_or_eq_of_le hfl with hlt | heq
    · omega
    · exfalso
      have hq : (⌊q⌋ : ℚ) + 1/2 ≤ q := by linarith
      rw [heq] at hq
      linarith
  unfold bankersRound
  split_ifs with h1 h2 h3
  · exact hfl
  · exact key (le_of_lt (by linarith [le_of_not_lt h1]))
  · exact hfl
  · exact key (le_of_not_lt h1)

theorem round2_nonneg {q : ℚ} (h : 0 ≤ q) : 0 ≤ round2 q := by
  unfold round2
  have hb : (0 : ℤ) ≤ bankersRound (q * 100) := bankersRound_nonneg (by positivity)
  have : (0 : ℚ) ≤ (bankersRound (q * 100) : ℚ) := by exact_mod_cast hb
  positivity

theorem round2_le_of_cents {q amount : ℚ} {c : ℤ} (hc : amount * 100 = (c : ℚ))
    (h : q ≤ amount) : round2 q ≤ amount := by
  have h1 : q * 100 ≤ (c : ℚ) := by
    have := mul_le_mul_of_nonneg_right h (by norm_num : (0 : ℚ) ≤ 100)
    linarith [hc ▸ this]
  have h2 : bankersRound (q * 100) ≤ c := bankersRound_le_int h1
  unfold round2
  rw [div_le_iff₀ (by norm_num : (0 : ℚ) < 100), hc]
  exact_mod_cast h2

theorem round2_zero : round2 0 = 0 := by
  norm_num [round2, bankersRound]

theorem pytrunc_eq_floor {q : ℚ} (h : 0 ≤ q) : pytrunc q = ⌊q⌋ := by
  unfold pytrunc
  rw [Rat.floor_def]
  exact Int.tdiv_eq_ediv (Rat.num_nonneg.mpr h) (Int.natCast_nonneg q.den)

theorem mem_insertD {α : Type} (k : α → ℤ) (x : α) (l : List α) (b : α) :
    b ∈ insertD k x l ↔ b = x ∨ b ∈ l := by
  induction l with
  | nil => simp [insertD]
  | cons y ys ih =>
      unfold insertD
      split_ifs with hk
      · simp only [List.mem_cons, ih]
        tauto
      · simp only [List.mem_cons]

theorem insertD_pairwise {α : Type} (k : α → ℤ) (x : α) (l : List α)
    (h : l.Pairwise (fun a b => k b ≤ k a)) :
    (insertD k x l).Pairwise (fun a b => k b ≤ k a) := by
  induction l with
  | nil => simp [insertD]
  | cons y ys ih =>
      rw [List.pairwise_cons] at h
      obtain ⟨hy, hys⟩ := h
      unfold insertD
      split_ifs with hk
      · rw [List.pairwise_cons]
        refine ⟨?_, ih hys⟩
        intro b hb
        rcases (mem_insertD k x ys b).mp hb with rfl | hmem
        · exact le_of_lt hk
        · exact hy b hmem
      · push_neg at hk
        rw [List.pairwise_cons]
        refine ⟨?_, ?_⟩
        · intro b hb
          rcases List.mem_cons.mp hb with rfl | hmem
          · exact hk
          · exact (hy b hmem).trans hk
        · rw [List.pairwise_cons]
          exact ⟨hy, hys⟩

theorem sortD_pairwise {α : Type} (k : α → ℤ) (l : List α) :
    (sortD k l).Pairwise (fun a b => k b ≤ k a) := by
  induction l with
  | nil => simp [sortD]
  | cons x xs ih => exact insertD_pairwise k x (sortD k xs) ih

theorem insertD_filter {α : Type} (k : α → ℤ) (v : ℤ) (x : α) (l : List α)
    (hs : l.Pairwise (fun a b => k b ≤ k a)) :
    (insertD k x l).filter (fun z => decide (k z = v)) =
      if k x = v then x :: l.filter (fun z => decide (k z = v))
      else l.filter (fun z => decide (k z = v)) := by
  induction l with
  | nil => by_cases hv : k x = v <;> simp [insertD, hv]
  | cons y ys ih =>
      rw [List.pairwise_cons] at hs
      obtain ⟨hy, hys⟩ := hs
      by_cases hk : k x < k y
      · unfold insertD
        rw [if_pos hk]
        by_cases hv : k x = v
        · have hyv : ¬ (k y = v) := fun hyv => by omega
          simp [List.filter_cons, ih hys, hv, hyv]
        · simp [List.filter_cons, ih hys, hv]
      · unfold insertD
        rw [if_neg hk]
        by_cases hv : k x = v <;> simp [List.filter_cons, hv]

theorem sortD_filter {α : Type} (k : α → ℤ) (v : ℤ) (l : List α) :
    (sortD k l).filter (fun z => decide (k z = v)) = l.filter (fun z => decide (k z = v)) := by
  induction l with
  | nil => rfl
  | cons x xs ih =>
      have h := insertD_filter k v x (sortD k xs) (sortD_pairwise k xs)
      show (insertD k x (sortD k xs)).filter _ = _
      rw [h, ih]
      by_cases hv : k x = v <;> simp [List.filter_cons, hv]

/-- A seasonal offer: active, inside its validity window at instant 50, with
    `season_type = "peak"`. -/
def seasonalOffer : Offer :=
  { code := "PEAKONLY", discount_type := "percentage", discount_value := 10,
    valid_until := 1000000, season_type := "peak" }

/-- A day-of-week restricted offer (`day_of_week = "weekend"`). -/
def weekendOffer : Offer :=
  { code := "WKND", discount_type := "percentage", discount_value := 10,
    valid_until := 1000000, day_of_week := "weekend" }

/-- Booking context with a July check-in: epoch day 20649 is 2026-07-15, and
    total_amount 8000. -/
def julyBooking : BookingData := { check_in := some 20649, total_amount := some 8000 }

/-- The SUMMER20 offer of the specification: percentage 20, min_amount 5000,
    season_type peak, valid at instant 50. -/
def summer20 : Offer :=
  { code := "SUMMER20", discount_type := "percentage", discount_value := 20,
    min_amount := 5000, valid_until := 1000000, season_type := "peak" }

/-- C1: the claim says evaluation is total and in particular that the calls
    `self.is_valid_season` / `self.is_valid_day` resolve to defined
    operations.  The code defines neither method, so `is_valid` raises
    `AttributeError` for any offer with `season_type` other than `all` (or
    `day_of_week` other than `all`) once a check-in date is supplied: here an
    active, in-window peak-season offer and a weekend-only offer both raise on
    a booking with a July 2026 check-in. -/
theorem C1_attribute_error_on_season_and_day :
    Offer.is_valid seasonalOffer none (some julyBooking) none 50 20600 =
      .error .attributeError ∧
    Offer.is_valid weekendOffer none (some julyBooking) none 50 20600 =
      .error .attributeError :=
  ⟨rfl, rfl⟩

/-- C3: the end-to-end SUMMER20 example.  With a July check-in and
    total_amount 8000 the claim expects `is_valid` to return true; the code
    instead raises `AttributeError` in the season branch (the month-set logic
    lives only in `SmartOfferEngine._check_season_match`, which `is_valid`
    never calls).  The discount half of the example does hold:
    `calculate_discount(8000)` is 1600. -/
theorem C3_summer20_season_raises :
    Offer.is_valid summer20 none (some julyBooking) none 50 20600 =
      .error .attributeError ∧
    summer20.calculate_discount 8000 1 = .ok 1600 := by
  refine ⟨rfl, ?_⟩
  have h : round2 ((8000 : ℚ) * (20/100)) = 1600 := by norm_num [round2, bankersRound]
  calc summer20.calculate_discount 8000 1
      = Except.ok (round2 ((8000 : ℚ) * (20/100))) := rfl
    _ = Except.ok 1600 := by rw [h]

/-- C5 counterexample: with no booking context, an active peak-season offer
    (priority 1, no auto-apply) receives the −10 season-mismatch penalty — its
    timing term is −10, so its total score is max(10 − 10, 0) = 0 instead of
    the 10 the claim (no season contribution) would give. -/
theorem C5_season_penalty_without_context :
    SmartOfferEngine.calculate_timing_match_score seasonalOffer none 0 = -10 ∧
    SmartOfferEngine.calculate_offer_score seasonalOffer none none none 0 = 0 ∧
    seasonalOffer.priority * 10 = 10 :=
  ⟨rfl, rfl, rfl⟩

/-- C5 amended: when no booking context is supplied, the booking-context term
    and the day-of-week, advance-booking and last-minute timing terms are
    skipped, but the season term is still evaluated and contributes the −10
    mismatch penalty to every offer with season_type other than all (a missing
    context counts as a season mismatch). -/
theorem C5_no_context_score (o : Offer) (user : Option User) (room : Option Room)
    (today : ℤ) :
    SmartOfferEngine.calculate_offer_score o user none room today =
      max (o.priority * 10
        + (match user with
           | some u =>
               if o.target_user_type ≠ "all" then
                 SmartOfferEngine.calculate_user_match_score o u
               else 0
           | none => 0)
        + (match room, o.target_rooms with
           | some r, some _ => SmartOfferEngine.calculate_room_match_score o r
           | _, _ => 0)
        + (if o.season_type ≠ "all" then (-10 : ℤ) else 0)
        + (if o.auto_apply then 15 else 0)) 0 := by
  have ht : SmartOfferEngine.calculate_timing_match_score o none today =
      (if o.season_type ≠ "all" then (-10 : ℤ) else 0) := by
    unfold SmartOfferEngine.calculate_timing_match_score SmartOfferEngine.check_season_match
    split_ifs <;> simp_all
  unfold SmartOfferEngine.calculate_offer_score
  simp only [ht]
  congr 1
  ring

/-- C7: for a stay_x_pay_y offer and nights ≥ 1, calculate_discount is 0 when
    discount_value ≥ nights, otherwise one night's rate (amount/nights,
    rounded to 2 decimals) when nights ≥ 4, and 0 when nights < 4. -/
theorem C7_stay_x_pay_y_discount (o : Offer) (amount : ℚ) (nights : ℤ)
    (ht : o.discount_type = "stay_x_pay_y") (hn : 1 ≤ nights) :
    o.calculate_discount amount nights =
      .ok (if (nights : ℚ) ≤ o.discount_value then 0
           else if 4 ≤ nights then round2 (amount / (nights : ℚ)) else 0) := by
  unfold Offer.calculate_discount
  simp only [ht]
  have h1 : ("stay_x_pay_y" == "percentage") = false := rfl
  have h2 : ("stay_x_pay_y" == "fixed") = false := rfl
  have h3 : ("stay_x_pay_y" == "stay_x_pay_y") = true := rfl
  rw [h1, h2, h3]
  simp only [Bool.false_eq_true, if_false, if_true]
  unfold Offer.calculate_stay_x_pay_y_discount
  have hne : ¬ (nights = 0) := by omega
  simp only [if_neg hne]
  split_ifs with hv h4
  · simp [Except.map, round2_zero]
  · simp [Except.map]
  · simp [Except.map, round2_zero]

/-- Offer used to witness the stay_x_pay_y discount rule. -/
def stayOffer : Offer :=
  { code := "STAY4PAY3", discount_type := "stay_x_pay_y", discount_value := 3,
    valid_until := 1000000 }

theorem C7_stay_x_pay_y_discount_witness :
    stayOffer.calculate_discount 1000 4 =
      .ok (if ((4 : ℤ) : ℚ) ≤ stayOffer.discount_value then 0
           else if 4 ≤ (4 : ℤ) then round2 ((1000 : ℚ) / (((4 : ℤ)) : ℚ)) else 0) :=
  C7_stay_x_pay_y_discount stayOffer 1000 4 rfl (by decide)

/-- C9: an offer whose stored target_rooms text is non-empty but not
    parseable as the expected JSON structure passes the room check for every
    room, and is_valid never rejects it with the room-targeting reason. -/
theorem C9_malformed_targeting_fail_open (o : Offer) (r : Room) (user : Option User)
    (bd : Option BookingData) (now today : ℤ)
    (hmal : o.target_rooms = some .malformed) :
    o.is_valid_for_room r = true ∧
    o.is_valid user bd (some r) now today ≠
      .ok (false, "Offer not applicable for this room") := by
  have hroom : o.is_valid_for_room r = true := by
    unfold Offer.is_valid_for_room
    rw [hmal]
  have hgate : o.roomGate (some r) = .ok (true, "Valid") := by
    unfold Offer.roomGate
    rw [hmal]
    simp [hroom]
  refine ⟨hroom, ?_⟩
  unfold Offer.is_valid
  split_ifs
  · simp
  · simp
  · simp
  · simp
  · cases bd with
    | none =>
        rw [hgate]
        simp
    | some b =>
        cases hb : o.is_valid_for_booking b today with
        | error e => simp [hb]
        | ok v =>
            cases v with
            | false => simp [hb]
            | true => simp [hb, hgate]

/-- Offer with malformed room-targeting JSON, and a sample room. -/
def malformedOffer : Offer :=
  { code := "MALF", discount_type := "fixed", discount_value := 100,
    valid_until := 1000000, target_rooms := some .malformed }

def deluxeRoom : Room := { id := 1, room_type := "deluxe" }

theorem C9_malformed_targeting_fail_open_witness :
    malformedOffer.is_valid_for_room deluxeRoom = true ∧
    malformedOffer.is_valid none none (some deluxeRoom) 50 0 ≠
      .ok (false, "Offer not applicable for this room") :=
  C9_malformed_targeting_fail_open malformedOffer deluxeRoom none none 50 0 rfl

/-- C10: in a free_night offer the nightly rate amount/nights is computed
    before the minimum-stay test, so with nights = 0 the call raises
    ZeroDivisionError regardless of min_stay_nights; with nights ≥ 1 and
    min_stay_nights = 0 the `int(nights / min_nights)` division raises; and
    under nights ≥ 1 and min_stay_nights ≥ 1 no error is reachable. -/
theorem C10_free_night_division_guard (o o0 : Offer) (amount : ℚ) (nights : ℤ)
    (ht : o.discount_type = "free_night") (ht0 : o0.discount_type = "free_night")
    (hn : 1 ≤ nights) (hm : 1 ≤ o.min_stay_nights) (hm0 : o0.min_stay_nights = 0) :
    o.calculate_discount amount 0 = .error .zeroDivisionError ∧
    o0.calculate_discount amount nights = .error .zeroDivisionError ∧
    ∃ d, o.calculate_discount amount nights = .ok d := by
  have hne : ¬ (nights = 0) := by omega
  have hle0 : o0.min_stay_nights ≤ nights := by omega
  refine ⟨?_, ?_, ?_⟩
  · unfold Offer.calculate_discount
    simp only [ht]
    unfold Offer.calculate_free_night_discount
    simp [Except.map]
  · have h0n : (0 : ℤ) ≤ nights := by omega
    unfold Offer.calculate_discount
    simp only [ht0]
    unfold Offer.calculate_free_night_discount
    simp [Except.map, hne, hm0, h0n]
  · unfold Offer.calculate_discount
    simp only [ht]
    have e1 : ("free_night" == "percentage") = false := rfl
    have e2 : ("free_night" == "fixed") = false := rfl
    have e3 : ("free_night" == "stay_x_pay_y") = false := rfl
    have e4 : ("free_night" == "free_night") = true := rfl
    rw [e1, e2, e3, e4]
    simp only [Bool.false_eq_true, if_false, if_true]
    unfold Offer.calculate_free_night_discount
    simp only [if_neg hne]
    split_ifs with hle hz
    · omega
    · exact ⟨_, rfl⟩
    · exact ⟨_, rfl⟩

/-- Free-night offers used to witness the division-guard analysis. -/
def freeNightOffer : Offer :=
  { code := "FREENIGHT", discount_type := "free_night", discount_value := 1,
    min_stay_nights := 3, valid_until := 1000000 }

def freeNightZeroMin : Offer :=
  { code := "FREENIGHT0", discount_type := "free_night", discount_value := 1,
    min_stay_nights := 0, valid_until := 1000000 }

theorem C10_free_night_division_guard_witness :
    freeNightOffer.calculate_discount 900 0 = .error .zeroDivisionError ∧
    freeNightZeroMin.calculate_discount 900 4 = .error .zeroDivisionError ∧
    ∃ d, freeNightOffer.calculate_discount 900 4 = .ok d :=
  C10_free_night_division_guard freeNightOffer freeNightZeroMin 900 4 rfl rfl
    (by decide) (by decide) rfl

/-- Offer with no minimum lead time but a maximum lead time of 5 days, and a
    booking 100 days ahead (check-in epoch day 100, today = 0). -/
def maxAdvOffer : Offer :=
  { code := "LASTMIN", discount_type := "fixed", discount_value := 100,
    valid_until := 1000, max_advance_booking_days := some 5 }

def farBooking : BookingData := { check_in := some 100, total_amount := some 100 }

/-- C4 counterexample: with advance_booking_days = 0 the whole advance block
    is skipped, so a booking 100 days ahead passes an offer whose
    max_advance_booking_days is 5 — is_valid returns true, not false. -/
theorem C4_max_advance_skipped_cex :
    maxAdvOffer.advance_booking_days = 0 ∧
    maxAdvOffer.max_advance_booking_days = some 5 ∧
    farBooking.check_in = some 100 ∧
    (5 : ℤ) < 100 - 0 ∧
    Offer.is_valid maxAdvOffer none (some farBooking) none 50 0 = .ok (true, "Valid") :=
  ⟨rfl, rfl, rfl, by decide, rfl⟩

/-- C4 amended: the maximum lead-time bound is enforced only when
    advance_booking_days > 0: for every offer with advance_booking_days > 0
    and a nonzero max_advance_booking_days, a booking whose lead time exceeds
    the maximum makes is_valid return false (with some reason); with
    advance_booking_days = 0 the check is skipped (see the counterexample). -/
theorem C4_max_advance_amended (o : Offer) (user : Option User) (b : BookingData)
    (room : Option Room) (now today ci m : ℤ)
    (hci : b.check_in = some ci) (hadv : 0 < o.advance_booking_days)
    (hmax : o.max_advance_booking_days = some m) (hm0 : m ≠ 0)
    (hlead : m < ci - today) :
    ∃ reason, o.is_valid user (some b) room now today = .ok (false, reason) := by
  have hbook : o.is_valid_for_booking b today = .ok false := by
    unfold Offer.is_valid_for_booking
    rw [hci, hmax]
    simp only [Bool.and_eq_true, Bool.or_eq_true, decide_eq_true_eq]
    have hAp : 0 < o.advance_booking_days ∧
        (ci - today < o.advance_booking_days ∨ (m ≠ 0 ∧ m < ci - today)) :=
      ⟨hadv, Or.inr ⟨hm0, hlead⟩⟩
    rw [if_pos hAp]
    split_ifs <;> rfl
  unfold Offer.is_valid
  split_ifs
  · exact ⟨_, rfl⟩
  · exact ⟨_, rfl⟩
  · exact ⟨_, rfl⟩
  · exact ⟨_, rfl⟩
  · simp only [hbook]
    exact ⟨_, rfl⟩

/-- Offer like maxAdvOffer but with a positive minimum lead time, so the
    maximum lead-time bound is actually enforced. -/
def wMaxAdvOffer : Offer :=
  { code := "LASTMIN2", discount_type := "fixed", discount_value := 100,
    valid_until := 1000, advance_booking_days := 2,
    max_advance_booking_days := some 5 }

theorem C4_max_advance_amended_witness :
    ∃ reason, wMaxAdvOffer.is_valid none (some farBooking) none 50 0 =
      .ok (false, reason) :=
  C4_max_advance_amended wMaxAdvOffer none farBooking none 50 0 100 5 rfl
    (by decide) rfl (by decide) (by decide)

/-- Percentage offer with discount_value 200 and no max_discount cap. -/
def hugePct : Offer :=
  { code := "BIGPCT", discount_type := "percentage", discount_value := 200,
    valid_until := 1000 }

/-- C2 counterexample: a percentage offer with nonnegative discount_value 200
    and no max_discount turns amount 100 into discount 200, which exceeds the
    amount — the code never clamps a percentage discount to the amount. -/
theorem C2_discount_exceeds_amount_cex :
    (0 : ℚ) ≤ hugePct.discount_value ∧
    hugePct.calculate_discount 100 1 = .ok 200 ∧
    ¬ ((200 : ℚ) ≤ 100) := by
  refine ⟨by decide, ?_, by decide⟩
  have h : round2 ((100 : ℚ) * (200 / 100)) = 200 := by
    norm_num [round2, bankersRound]
  calc hugePct.calculate_discount 100 1
      = Except.ok (round2 ((100 : ℚ) * (200 / 100))) := rfl
    _ = Except.ok 200 := by rw [h]

/-- C2 amended: calculate_discount stays within [0, amount] once the inputs
    rule out the unclamped cases: discount_value ≥ 0 and, for percentage
    offers, ≤ 100; max_discount nonnegative when set; min_stay_nights ≥ 1
    (free_night would otherwise divide by zero); nights ≥ 1; amount ≥ 0 and a
    whole number of hundredths (rounding cannot overshoot such an amount). -/
theorem C2_discount_bounds_amended (o : Offer) (amount : ℚ) (nights : ℤ) (c : ℤ)
    (hdv : 0 ≤ o.discount_value)
    (hpct : o.discount_type = "percentage" → o.discount_value ≤ 100)
    (hmaxd : ∀ m, o.max_discount = some m → 0 ≤ m)
    (hmin : 1 ≤ o.min_stay_nights)
    (hnights : 1 ≤ nights)
    (hamt : 0 ≤ amount)
    (hc : amount * 100 = (c : ℚ)) :
    ∃ d, o.calculate_discount amount nights = .ok d ∧ 0 ≤ d ∧ d ≤ amount := by
  have hne : ¬ (nights = 0) := by omega
  by_cases h1 : o.discount_type = "percentage"
  · unfold Offer.calculate_discount
    simp only [h1]
    have e1 : ("percentage" == "percentage") = true := rfl
    rw [e1]
    simp only [if_true]
    have hd0n : 0 ≤ amount * (o.discount_value / 100) :=
      mul_nonneg hamt (div_nonneg hdv (by norm_num))
    have hd0le : amount * (o.discount_value / 100) ≤ amount := by
      have hh : o.discount_value / 100 ≤ 1 := (div_le_one (by norm_num)).mpr (hpct h1)
      have h2 := mul_le_mul_of_nonneg_left hh hamt
      simpa using h2
    cases hmd : o.max_discount with
    | none =>
        refine ⟨round2 (amount * (o.discount_value / 100)), ?_,
          round2_nonneg hd0n, round2_le_of_cents hc hd0le⟩
        simp [hmd]
    | some m =>
        have hm := hmaxd m hmd
        by_cases hm0 : m = 0
        · refine ⟨round2 (amount * (o.discount_value / 100)), ?_,
            round2_nonneg hd0n, round2_le_of_cents hc hd0le⟩
          simp [hmd, hm0]
        · refine ⟨round2 (min (amount * (o.discount_value / 100)) m), ?_,
            round2_nonneg (le_min hd0n hm),
            round2_le_of_cents hc (le_trans (min_le_left _ _) hd0le)⟩
          simp [hmd, hm0]
  · by_cases h2 : o.discount_type = "fixed"
    · unfold Offer.calculate_discount
      simp only [h2]
      have e1 : ("fixed" == "percentage") = false := rfl
      have e2 : ("fixed" == "fixed") = true := rfl
      rw [e1, e2]
      simp only [Bool.false_eq_true, if_false, if_true]
      exact ⟨round2 (min o.discount_value amount), rfl,
        round2_nonneg (le_min hdv hamt),
        round2_le_of_cents hc (min_le_right _ _)⟩
    · by_cases h3 : o.discount_type = "stay_x_pay_y"
      · unfold Offer.calculate_discount
        simp only [h3]
        have e1 : ("stay_x_pay_y" == "percentage") = false := rfl
        have e2 : ("stay_x_pay_y" == "fixed") = false := rfl
        have e3 : ("stay_x_pay_y" == "stay_x_pay_y") = true := rfl
        rw [e1, e2, e3]
        simp only [Bool.false_eq_true, if_false, if_true]
        unfold Offer.calculate_stay_x_pay_y_discount
        simp only [if_neg hne]
        split_ifs with hv h4
        · exact ⟨0, by simp [Except.map, round2_zero], le_refl 0, hamt⟩
        · have hc1 : (1 : ℚ) ≤ (nights : ℚ) := by exact_mod_cast hnights
          have hq0 : 0 ≤ amount / (nights : ℚ) :=
            div_nonneg hamt (by linarith)
          have hqle : amount / (nights : ℚ) ≤ amount := div_le_self hamt hc1
          exact ⟨round2 (amount / (nights : ℚ)), by simp [Except.map],
            round2_nonneg hq0, round2_le_of_cents hc hqle⟩
        · exact ⟨0, by simp [Except.map, round2_zero], le_refl 0, hamt⟩
      · by_cases h4 : o.discount_type = "free_night"
        · unfold Offer.calculate_discount
          simp only [h4]
          have e1 : ("free_night" == "percentage") = false := rfl
          have e2 : ("free_night" == "fixed") = false := rfl
          have e3 : ("free_night" == "stay_x_pay_y") = false := rfl
          have e4 : ("free_night" == "free_night") = true := rfl
          rw [e1, e2, e3, e4]
          simp only [Bool.false_eq_true, if_false, if_true]
          unfold Offer.calculate_free_night_discount
          simp only [if_neg hne]
          split_ifs with hle hz
          · omega
          · have hc1 : (1 : ℚ) ≤ (nights : ℚ) := by exact_mod_cast hnights
            have hcm : (1 : ℚ) ≤ (o.min_stay_nights : ℚ) := by exact_mod_cast hmin
            have hnpos : (0 : ℚ) < (nights : ℚ) := by linarith
            have hqn : 0 ≤ (nights : ℚ) / (o.min_stay_nights : ℚ) :=
              div_nonneg (by linarith) (by linarith)
            have htr : pytrunc ((nights : ℚ) / (o.min_stay_nights : ℚ)) =
                ⌊(nights : ℚ) / (o.min_stay_nights : ℚ)⌋ := pytrunc_eq_floor hqn
            have hfl0 : (0 : ℤ) ≤ ⌊(nights : ℚ) / (o.min_stay_nights : ℚ)⌋ :=
              Int.floor_nonneg.mpr hqn
            have hfle : ((⌊(nights : ℚ) / (o.min_stay_nights : ℚ)⌋ : ℤ) : ℚ) ≤
                (nights : ℚ) := by
              calc ((⌊(nights : ℚ) / (o.min_stay_nights : ℚ)⌋ : ℤ) : ℚ)
                  ≤ (nights : ℚ) / (o.min_stay_nights : ℚ) := Int.floor_le _
                _ ≤ (nights : ℚ) := div_le_self (by linarith) hcm
            have hq0 : 0 ≤ (pytrunc ((nights : ℚ) / (o.min_stay_nights : ℚ)) : ℚ) *
                (amount / (nights : ℚ)) := by
              apply mul_nonneg _ (div_nonneg hamt (le_of_lt hnpos))
              rw [htr]
              exact_mod_cast hfl0
            have hqle : (pytrunc ((nights : ℚ) / (o.min_stay_nights : ℚ)) : ℚ) *
                (amount / (nights : ℚ)) ≤ amount := by
              have hs1 : (pytrunc ((nights : ℚ) / (o.min_stay_nights : ℚ)) : ℚ) *
                  (amount / (nights : ℚ)) ≤ (nights : ℚ) * (amount / (nights : ℚ)) := by
                apply mul_le_mul_of_nonneg_right _ (div_nonneg hamt (le_of_lt hnpos))
                rw [htr]
                exact hfle
              have hs2 : (nights : ℚ) * (amount / (nights : ℚ)) = amount := by
                rw [mul_comm]
                exact div_mul_cancel₀ amount (ne_of_gt hnpos)
              linarith
            exact ⟨_, by simp [Except.map], round2_nonneg hq0,
              round2_le_of_cents hc hqle⟩
          · exact ⟨0, by simp [Except.map, round2_zero], le_refl 0, hamt⟩
        · unfold Offer.calculate_discount
          have e1 : (o.discount_type == "percentage") = false :=
            beq_eq_false_iff_ne.mpr h1
          have e2 : (o.discount_type == "fixed") = false :=
            beq_eq_false_iff_ne.mpr h2
          have e3 : (o.discount_type == "stay_x_pay_y") = false :=
            beq_eq_false_iff_ne.mpr h3
          have e4 : (o.discount_type == "free_night") = false :=
            beq_eq_false_iff_ne.mpr h4
          rw [e1, e2, e3, e4]
          simp only [Bool.false_eq_true, if_false]
          exact ⟨0, by rw [round2_zero], le_refl 0, hamt⟩

theorem C2_discount_bounds_amended_witness :
    ∃ d, summer20.calculate_discount 8000 1 = .ok d ∧ 0 ≤ d ∧ d ≤ 8000 :=
  C2_discount_bounds_amended summer20 8000 1 800000 (by decide)
    (fun _ => by decide) (fun m hm => nomatch hm) (by decide) (by decide) (by decide)
    (by norm_num)

/-- Two equal-priority valid offers differing only in code and creation time:
    basicOffer is stored first and created earlier. -/
def basicOffer : Offer :=
  { code := "BASIC", discount_type := "fixed", discount_value := 50,
    valid_until := 1000, created_at := 100 }

def newerOffer : Offer :=
  { code := "BASIC2", discount_type := "fixed", discount_value := 50,
    valid_until := 1000, created_at := 200 }

/-- C8: generate_personalized_offers never returns more than 8 offers. -/
theorem C8_selection_cap (db : List Offer) (user : Option User) (bd : Option BookingData)
    (room : Option Room) (now today : ℤ) (out : List Offer)
    (h : SmartOfferEngine.generate_personalized_offers db user bd room now today = .ok out) :
    out.length ≤ 8 := by
  unfold SmartOfferEngine.generate_personalized_offers at h
  cases hg : Offer.get_available_offers db user bd room now today with
  | error e =>
      rw [hg] at h
      exact absurd h (by simp)
  | ok avail =>
      rw [hg] at h
      have hout := (Except.ok.inj h).symm
      rw [hout, List.length_take]
      exact min_le_left _ _

theorem C8_selection_cap_witness : (List.replicate 8 basicOffer).length ≤ 8 :=
  C8_selection_cap (List.replicate 10 basicOffer) none none none 50 0
    (List.replicate 8 basicOffer) rfl

/-- C6 counterexample: a catalog holding two valid offers with equal priority
    and equal score, the earlier-created one stored first.  The engine returns
    them in stored order, so the offer created later appears later, not
    earlier as the claim requires. -/
theorem C6_created_at_ignored_cex :
    SmartOfferEngine.generate_personalized_offers [basicOffer, newerOffer]
      none none none 50 0 = .ok [basicOffer, newerOffer] ∧
    basicOffer.created_at < newerOffer.created_at ∧
    basicOffer.priority = newerOffer.priority ∧
    SmartOfferEngine.calculate_offer_score basicOffer none none none 0 =
      SmartOfferEngine.calculate_offer_score newerOffer none none none 0 :=
  ⟨rfl, by decide, rfl, rfl⟩

/-- C6 amended: the output is the first 8 of the valid offers stably sorted
    descending by score.  It is sorted descending by score; within one score
    value the order of the availability list is preserved, and that list is
    itself the active-public catalog stably sorted by priority descending
    (within one priority value the stored order is preserved).  created_at is
    never consulted, so equal-score equal-priority offers keep their stored
    order instead of appearing newest first. -/
theorem C6_ranking_amended (db : List Offer) (user : Option User) (bd : Option BookingData)
    (room : Option Room) (now today : ℤ) (out : List Offer)
    (h : SmartOfferEngine.generate_personalized_offers db user bd room now today = .ok out) :
    ∃ avail, Offer.get_available_offers db user bd room now today = .ok avail ∧
      out = (sortD (fun o => SmartOfferEngine.calculate_offer_score o user bd room today)
        avail).take 8 ∧
      out.Pairwise (fun a b =>
        SmartOfferEngine.calculate_offer_score b user bd room today ≤
        SmartOfferEngine.calculate_offer_score a user bd room today) ∧
      (∀ v, (sortD (fun o => SmartOfferEngine.calculate_offer_score o user bd room today)
          avail).filter
            (fun o => decide (SmartOfferEngine.calculate_offer_score o user bd room today = v)) =
        avail.filter
          (fun o => decide (SmartOfferEngine.calculate_offer_score o user bd room today = v))) ∧
      (∀ p, (sortD (fun o => o.priority)
          (db.filter (fun o => o.is_active && o.is_public))).filter
            (fun o => decide (o.priority = p)) =
        (db.filter (fun o => o.is_active && o.is_public)).filter
          (fun o => decide (o.priority = p))) := by
  unfold SmartOfferEngine.generate_personalized_offers at h
  cases hg : Offer.get_available_offers db user bd room now today with
  | error e =>
      rw [hg] at h
      exact absurd h (by simp)
  | ok avail =>
      rw [hg] at h
      have hout := (Except.ok.inj h).symm
      refine ⟨avail, rfl, hout, ?_, ?_, ?_⟩
      · rw [hout]
        exact (sortD_pairwise _ avail).sublist (List.take_sublist _ _)
      · intro v
        exact sortD_filter _ v avail
      · intro p
        exact sortD_filter _ p _

theorem C6_ranking_amended_witness :
    ∃ avail, Offer.get_available_offers [basicOffer, newerOffer] none none none 50 0 =
        .ok avail ∧
      [basicOffer, newerOffer] =
        (sortD (fun o => SmartOfferEngine.calculate_offer_score o none none none 0)
          avail).take 8 ∧
      List.Pairwise (fun a b =>
        SmartOfferEngine.calculate_offer_score b none none none 0 ≤
        SmartOfferEngine.calculate_offer_score a none none none 0)
        [basicOffer, newerOffer] ∧
      (∀ v, (sortD (fun o => SmartOfferEngine.calculate_offer_score o none none none 0)
          avail).filter
            (fun o => decide (SmartOfferEngine.calculate_offer_score o none none none 0 = v)) =
        avail.filter
          (fun o => decide (SmartOfferEngine.calculate_offer_score o none none none 0 = v))) ∧
      (∀ p, (sortD (fun o => o.priority)
          (([basicOffer, newerOffer]).filter (fun o => o.is_active && o.is_public))).filter
            (fun o => decide (o.priority = p)) =
        (([basicOffer, newerOffer]).filter (fun o => o.is_active && o.is_public)).filter
          (fun o => decide (o.priority = p))) :=
  C6_ranking_amended [basicOffer, newerOffer] none none none 50 0
    [basicOffer, newerOffer] rfl
